import Mathlib

namespace Jules

/-! Shallow embedding of the jules-mcp repository: `models.py` (the pydantic
resource schema), `client.py` (the HTTP adapter `JulesClient`) and `main.py`
(the tool layer).  Wire JSON objects are modelled by the `Json` inductive;
pydantic validation (`Model.model_validate`) becomes a `parse` function into
`Except`, and `model_dump(by_alias=True, exclude_none=True)` becomes a
`serialize` function back to `Json`.  Timestamp fields are modelled as their
wire strings. -/

/-- Wire JSON values. -/
inductive Json where
  | null : Json
  | str : String → Json
  | bool : Bool → Json
  | num : Int → Json
  | arr : List Json → Json
  | obj : List (String × Json) → Json

/-- Key lookup in a JSON object's field list (first match). -/
def lookupField : List (String × Json) → String → Option Json
  | [], _ => none
  | (k', v) :: rest, k => if k' = k then some v else lookupField rest k

/-- Key lookup on a JSON value (`none` on non-objects). -/
def Json.get : Json → String → Option Json
  | .obj fields, k => lookupField fields k
  | _, _ => none

/-- A required string field: present with a string value, otherwise a
validation error naming the field (pydantic: `field: str = Field(...)`). -/
def reqStr (x : Json) (k : String) : Except String String :=
  match x.get k with
  | some (.str s) => .ok s
  | _ => .error k

/-- An optional string field: absent or `null` yields `none`
(pydantic: `Optional[str] = None`). -/
def optStr (x : Json) (k : String) : Except String (Option String) :=
  match x.get k with
  | none => .ok none
  | some .null => .ok none
  | some (.str s) => .ok (some s)
  | some _ => .error k

/-- An optional boolean field (pydantic: `Optional[bool] = None`). -/
def optBool (x : Json) (k : String) : Except String (Option Bool) :=
  match x.get k with
  | none => .ok none
  | some .null => .ok none
  | some (.bool b) => .ok (some b)
  | some _ => .error k

/-- A required integer field (pydantic: `index: int`). -/
def reqInt (x : Json) (k : String) : Except String Int :=
  match x.get k with
  | some (.num n) => .ok n
  | _ => .error k

/-- A required nested-model field, parsed with the nested model's parser
(pydantic: `field: Model = Field(...)`; `null` is rejected). -/
def reqField (x : Json) (k : String) (p : Json → Except String α) :
    Except String α :=
  match x.get k with
  | none => .error k
  | some .null => .error k
  | some v => p v

/-- An optional nested-model field (pydantic: `Optional[Model] = None`). -/
def optField (x : Json) (k : String) (p : Json → Except String α) :
    Except String (Option α) :=
  match x.get k with
  | none => .ok none
  | some .null => .ok none
  | some v => (p v).map some

/-- Parse every element of a JSON array, preserving order. -/
def parseList (p : Json → Except String α) : List Json → Except String (List α)
  | [] => .ok []
  | v :: rest => do
    let a ← p v
    let as ← parseList p rest
    .ok (a :: as)

/-- A required list-of-models field (pydantic: `steps: List[PlanStep]`). -/
def reqList (x : Json) (k : String) (p : Json → Except String α) :
    Except String (List α) :=
  match x.get k with
  | some (.arr l) => parseList p l
  | _ => .error k

/-- An optional list-of-models field (pydantic: `Optional[List[Model]]`). -/
def optList (x : Json) (k : String) (p : Json → Except String α) :
    Except String (Option (List α)) :=
  match x.get k with
  | none => .ok none
  | some .null => .ok none
  | some (.arr l) => (parseList p l).map some
  | some _ => .error k

/-- A required enum-valued field: must be a string in the enum's closed set
(pydantic: a `str` `Enum` field rejects unrecognized values). -/
def reqEnum (x : Json) (k : String) (p : String → Except String α) :
    Except String α :=
  match x.get k with
  | some (.str s) => p s
  | _ => .error k

/-- An optional enum-valued field. -/
def optEnum (x : Json) (k : String) (p : String → Except String α) :
    Except String (Option α) :=
  match x.get k with
  | none => .ok none
  | some .null => .ok none
  | some (.str s) => (p s).map some
  | some _ => .error k

/-- `models.py`: `class SessionState(str, Enum)`. -/
inductive SessionState where
  | STATE_UNSPECIFIED
  | QUEUED
  | PLANNING
  | AWAITING_PLAN_APPROVAL
  | AWAITING_USER_FEEDBACK
  | IN_PROGRESS
  | PAUSED
  | FAILED
  | COMPLETED
deriving DecidableEq

/-- The wire string of each `SessionState` member. -/
def SessionState.toWire : SessionState → String
  | .STATE_UNSPECIFIED => "STATE_UNSPECIFIED"
  | .QUEUED => "QUEUED"
  | .PLANNING => "PLANNING"
  | .AWAITING_PLAN_APPROVAL => "AWAITING_PLAN_APPROVAL"
  | .AWAITING_USER_FEEDBACK => "AWAITING_USER_FEEDBACK"
  | .IN_PROGRESS => "IN_PROGRESS"
  | .PAUSED => "PAUSED"
  | .FAILED => "FAILED"
  | .COMPLETED => "COMPLETED"

/-- Validation of a wire string against `SessionState`'s closed member set:
pydantic rejects any string outside the enum. -/
def SessionState.ofString : String → Except String SessionState
  | "STATE_UNSPECIFIED" => .ok .STATE_UNSPECIFIED
  | "QUEUED" => .ok .QUEUED
  | "PLANNING" => .ok .PLANNING
  | "AWAITING_PLAN_APPROVAL" => .ok .AWAITING_PLAN_APPROVAL
  | "AWAITING_USER_FEEDBACK" => .ok .AWAITING_USER_FEEDBACK
  | "IN_PROGRESS" => .ok .IN_PROGRESS
  | "PAUSED" => .ok .PAUSED
  | "FAILED" => .ok .FAILED
  | "COMPLETED" => .ok .COMPLETED
  | _ => .error "state"

/-- `models.py`: `class AutomationMode(str, Enum)`. -/
inductive AutomationMode where
  | AUTOMATION_MODE_UNSPECIFIED
  | AUTO_CREATE_PR
deriving DecidableEq

/-- The wire string of each `AutomationMode` member. -/
def AutomationMode.toWire : AutomationMode → String
  | .AUTOMATION_MODE_UNSPECIFIED => "AUTOMATION_MODE_UNSPECIFIED"
  | .AUTO_CREATE_PR => "AUTO_CREATE_PR"

/-- Validation of a wire string against `AutomationMode`'s closed set. -/
def AutomationMode.ofString : String → Except String AutomationMode
  | "AUTOMATION_MODE_UNSPECIFIED" => .ok .AUTOMATION_MODE_UNSPECIFIED
  | "AUTO_CREATE_PR" => .ok .AUTO_CREATE_PR
  | _ => .error "automationMode"

/-- `models.py`: `class GitHubRepoContext(BaseModel)`. -/
structure GitHubRepoContext where
  startingBranch : String

/-- `models.py`: `class SourceContext(BaseModel)`. -/
structure SourceContext where
  source : String
  githubRepoContext : Option GitHubRepoContext

/-- `models.py`: `class Source(BaseModel)`. -/
structure Source where
  name : String
  displayName : Option String
  branch : Option String

/-- `models.py`: `class PullRequest(BaseModel)`. -/
structure PullRequest where
  url : Option String
  title : Option String
  description : Option String

/-- `models.py`: `class SessionOutput(BaseModel)`. -/
structure SessionOutput where
  pullRequest : Option PullRequest

/-- `models.py`: `class Session(BaseModel)`.  `name`, `id`, `prompt`,
`sourceContext` and `state` are declared with `Field(...)` (required, no
default); the rest are `Optional` with default `None`. -/
structure Session where
  name : String
  id : String
  prompt : String
  sourceContext : SourceContext
  title : Option String
  requirePlanApproval : Option Bool
  automationMode : Option AutomationMode
  createTime : Option String
  updateTime : Option String
  state : SessionState
  url : Option String
  outputs : Option (List SessionOutput)

def GitHubRepoContext.parse (x : Json) : Except String GitHubRepoContext := do
  let sb ← reqStr x "startingBranch"
  .ok { startingBranch := sb }

def SourceContext.parse (x : Json) : Except String SourceContext := do
  let src ← reqStr x "source"
  let gh ← optField x "githubRepoContext" GitHubRepoContext.parse
  .ok { source := src, githubRepoContext := gh }

def Source.parse (x : Json) : Except String Source := do
  let n ← reqStr x "name"
  let dn ← optStr x "displayName"
  let br ← optStr x "branch"
  .ok { name := n, displayName := dn, branch := br }

def PullRequest.parse (x : Json) : Except String PullRequest := do
  let u ← optStr x "url"
  let t ← optStr x "title"
  let d ← optStr x "description"
  .ok { url := u, title := t, description := d }

def SessionOutput.parse (x : Json) : Except String SessionOutput := do
  let pr ← optField x "pullRequest" PullRequest.parse
  .ok { pullRequest := pr }

def Session.parse (x : Json) : Except String Session := do
  let n ← reqStr x "name"
  let i ← reqStr x "id"
  let p ← reqStr x "prompt"
  let sc ← reqField x "sourceContext" SourceContext.parse
  let t ← optStr x "title"
  let rpa ← optBool x "requirePlanApproval"
  let am ← optEnum x "automationMode" AutomationMode.ofString
  let ct ← optStr x "createTime"
  let ut ← optStr x "updateTime"
  let st ← reqEnum x "state" SessionState.ofString
  let u ← optStr x "url"
  let os ← optList x "outputs" SessionOutput.parse
  .ok { name := n, id := i, prompt := p, sourceContext := sc, title := t,
        requirePlanApproval := rpa, automationMode := am, createTime := ct,
        updateTime := ut, state := st, url := u, outputs := os }

/-- `models.py`: `class PlanStep(BaseModel)`. -/
structure PlanStep where
  id : String
  title : String
  description : Option String
  index : Int

/-- `models.py`: `class Plan(BaseModel)`. -/
structure Plan where
  id : String
  steps : List PlanStep
  createTime : Option String

/-- `models.py`: `class PlanGenerated(BaseModel)`. -/
structure PlanGenerated where
  plan : Plan

/-- `models.py`: `class PlanApproved(BaseModel)`. -/
structure PlanApproved where
  planId : String

/-- `models.py`: `class AgentMessaged(BaseModel)`. -/
structure AgentMessaged where
  agentMessage : String

/-- `models.py`: `class UserMessaged(BaseModel)`. -/
structure UserMessaged where
  userMessage : String

/-- `models.py`: `class ProgressUpdated(BaseModel)`. -/
structure ProgressUpdated where
  title : Option String
  description : Option String

/-- `models.py`: `class SessionFailed(BaseModel)`. -/
structure SessionFailed where
  reason : Option String

/-- `models.py`: `class SessionCompleted(BaseModel)` (no fields). -/
structure SessionCompleted where

/-- `models.py`: `class GitPatch(BaseModel)`. -/
structure GitPatch where
  unidiffPatch : Option String
  baseCommitId : Option String
  suggestedCommitMessage : Option String

/-- `models.py`: `class ChangeSet(BaseModel)`. -/
structure ChangeSet where
  source : String
  gitPatch : Option GitPatch

/-- `models.py`: `class Artifact(BaseModel)`. -/
structure Artifact where
  changeSet : Option ChangeSet

/-- `models.py`: `class Activity(BaseModel)`: required `name` and `id`,
optional metadata, and seven optional union-payload fields. -/
structure Activity where
  name : String
  id : String
  description : Option String
  createTime : Option String
  originator : Option String
  artifacts : Option (List Artifact)
  agentMessaged : Option AgentMessaged
  userMessaged : Option UserMessaged
  planGenerated : Option PlanGenerated
  planApproved : Option PlanApproved
  progressUpdated : Option ProgressUpdated
  sessionCompleted : Option SessionCompleted
  sessionFailed : Option SessionFailed

def PlanStep.parse (x : Json) : Except String PlanStep := do
  let i ← reqStr x "id"
  let t ← reqStr x "title"
  let d ← optStr x "description"
  let ix ← reqInt x "index"
  .ok { id := i, title := t, description := d, index := ix }

def Plan.parse (x : Json) : Except String Plan := do
  let i ← reqStr x "id"
  let ss ← reqList x "steps" PlanStep.parse
  let ct ← optStr x "createTime"
  .ok { id := i, steps := ss, createTime := ct }

def PlanGenerated.parse (x : Json) : Except String PlanGenerated := do
  let p ← reqField x "plan" Plan.parse
  .ok { plan := p }

def PlanApproved.parse (x : Json) : Except String PlanApproved := do
  let p ← reqStr x "planId"
  .ok { planId := p }

def AgentMessaged.parse (x : Json) : Except String AgentMessaged := do
  let m ← reqStr x "agentMessage"
  .ok { agentMessage := m }

def UserMessaged.parse (x : Json) : Except String UserMessaged := do
  let m ← reqStr x "userMessage"
  .ok { userMessage := m }

def ProgressUpdated.parse (x : Json) : Except String ProgressUpdated := do
  let t ← optStr x "title"
  let d ← optStr x "description"
  .ok { title := t, description := d }

def SessionFailed.parse (x : Json) : Except String SessionFailed := do
  let r ← optStr x "reason"
  .ok { reason := r }

def SessionCompleted.parse (x : Json) : Except String SessionCompleted :=
  match x with
  | .obj _ => .ok {}
  | _ => .error "sessionCompleted"

def GitPatch.parse (x : Json) : Except String GitPatch := do
  let up ← optStr x "unidiffPatch"
  let bc ← optStr x "baseCommitId"
  let scm ← optStr x "suggestedCommitMessage"
  .ok { unidiffPatch := up, baseCommitId := bc, suggestedCommitMessage := scm }

def ChangeSet.parse (x : Json) : Except String ChangeSet := do
  let s ← reqStr x "source"
  let gp ← optField x "gitPatch" GitPatch.parse
  .ok { source := s, gitPatch := gp }

def Artifact.parse (x : Json) : Except String Artifact := do
  let cs ← optField x "changeSet" ChangeSet.parse
  .ok { changeSet := cs }

def Activity.parse (x : Json) : Except String Activity := do
  let n ← reqStr x "name"
  let i ← reqStr x "id"
  let d ← optStr x "description"
  let ct ← optStr x "createTime"
  let og ← optStr x "originator"
  let ar ← optList x "artifacts" Artifact.parse
  let am ← optField x "agentMessaged" AgentMessaged.parse
  let um ← optField x "userMessaged" UserMessaged.parse
  let pg ← optField x "planGenerated" PlanGenerated.parse
  let pa ← optField x "planApproved" PlanApproved.parse
  let pu ← optField x "progressUpdated" ProgressUpdated.parse
  let sc ← optField x "sessionCompleted" SessionCompleted.parse
  let sf ← optField x "sessionFailed" SessionFailed.parse
  .ok { name := n, id := i, description := d, createTime := ct,
        originator := og, artifacts := ar, agentMessaged := am,
        userMessaged := um, planGenerated := pg, planApproved := pa,
        progressUpdated := pu, sessionCompleted := sc, sessionFailed := sf }

/-! Serialization: `model_dump(by_alias=True, exclude_none=True)` emits the
fields in declaration order, skipping fields whose value is `None`. -/

/-- One field entry when the value is set, nothing when it is `None`. -/
def optEntry (k : String) : Option Json → List (String × Json)
  | none => []
  | some v => [(k, v)]

def GitHubRepoContext.serialize (g : GitHubRepoContext) : Json :=
  .obj [("startingBranch", .str g.startingBranch)]

def SourceContext.serialize (sc : SourceContext) : Json :=
  .obj (("source", .str sc.source) ::
    optEntry "githubRepoContext" (sc.githubRepoContext.map GitHubRepoContext.serialize))

def PullRequest.serialize (pr : PullRequest) : Json :=
  .obj (optEntry "url" (pr.url.map .str) ++
    optEntry "title" (pr.title.map .str) ++
    optEntry "description" (pr.description.map .str))

def SessionOutput.serialize (o : SessionOutput) : Json :=
  .obj (optEntry "pullRequest" (o.pullRequest.map PullRequest.serialize))

def Session.serialize (s : Session) : Json :=
  .obj ([("name", .str s.name), ("id", .str s.id), ("prompt", .str s.prompt),
         ("sourceContext", s.sourceContext.serialize)] ++
    optEntry "title" (s.title.map .str) ++
    optEntry "requirePlanApproval" (s.requirePlanApproval.map .bool) ++
    optEntry "automationMode" (s.automationMode.map (fun m => .str m.toWire)) ++
    optEntry "createTime" (s.createTime.map .str) ++
    optEntry "updateTime" (s.updateTime.map .str) ++
    [("state", .str s.state.toWire)] ++
    optEntry "url" (s.url.map .str) ++
    optEntry "outputs" (s.outputs.map (fun l => .arr (l.map SessionOutput.serialize))))

/-! List-response wrappers.  `client.py` imports `ListSourcesResponse`,
`ListSessionsResponse` and `ListActivitiesResponse` from `models`, but
`models.py` does not define them; `main.py` accesses `response.sessions` and
`response.next_page_token` (aliased to `nextPageToken` on the wire). -/

/-- Modelled from the spec: `ListSourcesResponse` is imported by `client.py`
but missing from `models.py`.  Per spec §3, a paginated response wrapper
holds the ordered sequence of result items plus an optional opaque
continuation token; an empty token means no further pages. -/
structure ListSourcesResponse where
  sources : List Source
  nextPageToken : Option String

/-- Modelled from the spec: `ListSessionsResponse` is imported by `client.py`
but missing from `models.py` (see `ListSourcesResponse`). -/
structure ListSessionsResponse where
  sessions : List Session
  nextPageToken : Option String

/-- Modelled from the spec: `ListActivitiesResponse` is imported by
`client.py` but missing from `models.py` (see `ListSourcesResponse`). -/
structure ListActivitiesResponse where
  activities : List Activity
  nextPageToken : Option String

/-- Modelled from the spec: parse of the sources page wrapper — an absent
item list means an empty page, the continuation token is optional. -/
def ListSourcesResponse.parse (x : Json) : Except String ListSourcesResponse := do
  let items ← optList x "sources" Source.parse
  let tok ← optStr x "nextPageToken"
  .ok { sources := items.getD [], nextPageToken := tok }

/-- Modelled from the spec: parse of the sessions page wrapper. -/
def ListSessionsResponse.parse (x : Json) : Except String ListSessionsResponse := do
  let items ← optList x "sessions" Session.parse
  let tok ← optStr x "nextPageToken"
  .ok { sessions := items.getD [], nextPageToken := tok }

/-- Modelled from the spec: parse of the activities page wrapper. -/
def ListActivitiesResponse.parse (x : Json) : Except String ListActivitiesResponse := do
  let items ← optList x "activities" Activity.parse
  let tok ← optStr x "nextPageToken"
  .ok { activities := items.getD [], nextPageToken := tok }

/-- Modelled from the spec: an empty or absent continuation token means there
are no further pages (this also matches how the tool layer propagates a
token: a falsy `page_token` is never forwarded). -/
def hasMorePages (tok : Option String) : Bool :=
  match tok with
  | none => false
  | some t => !(t == "")

/-! The transport adapter, `client.py`.  Each `JulesClient` method builds one
HTTP request, awaits one response, calls `raise_for_status()` and feeds the
JSON body to the schema's parse.  We model a method as a pure function from
its arguments and the (single) transport response to the list of issued
requests paired with the outcome. -/

/-- `client.py`: `BASE_URL`. -/
def BASE_URL : String := "https://jules.googleapis.com/v1alpha"

/-- One HTTP request as built by a `JulesClient` method. -/
structure HttpRequest where
  method : String
  url : String
  headers : List (String × String)
  params : List (String × String)
  body : Option Json

/-- The transport's response: status code and decoded JSON body. -/
structure HttpResponse where
  status : Nat
  body : Json

/-- The three error kinds of the design: `ValidationError` (pydantic),
`RemoteRequestError` (`httpx.HTTPStatusError`, carrying status and body) and
`ConfigurationError` (the `ValueError` from `get_client`). -/
inductive JulesError where
  | validation : String → JulesError
  | remote : Nat → Json → JulesError
  | configuration : String → JulesError

/-- `client.py`: `class JulesClient` holds the API key. -/
structure JulesClient where
  api_key : String

/-- `client.py`: the headers attached to every request. -/
def JulesClient.headers (c : JulesClient) : List (String × String) :=
  [("X-Goog-Api-Key", c.api_key), ("Content-Type", "application/json")]

/-- `response.raise_for_status()` followed by `response.json()`: a 2xx
status yields the body, anything else raises carrying status and body. -/
def checkStatus (resp : HttpResponse) : Except JulesError Json :=
  if 200 ≤ resp.status ∧ resp.status < 300 then .ok resp.body
  else .error (.remote resp.status resp.body)

/-- A query parameter added only when the Python value is truthy
(`if page_token: params[...] = page_token`): `None` and `""` are skipped. -/
def truthyParam (k : String) : Option String → List (String × String)
  | none => []
  | some v => if v == "" then [] else [(k, v)]

def JulesClient.list_sources_req (c : JulesClient) (page_size : Nat)
    (page_token filter_expr : Option String) : HttpRequest :=
  { method := "GET", url := BASE_URL ++ "/sources", headers := c.headers,
    params := [("pageSize", toString page_size)] ++
      truthyParam "pageToken" page_token ++ truthyParam "filter" filter_expr,
    body := none }

def JulesClient.get_source_req (c : JulesClient) (source_name : String) :
    HttpRequest :=
  { method := "GET", url := BASE_URL ++ "/" ++ source_name,
    headers := c.headers, params := [], body := none }

def JulesClient.list_sessions_req (c : JulesClient) (page_size : Nat)
    (page_token : Option String) : HttpRequest :=
  { method := "GET", url := BASE_URL ++ "/sessions", headers := c.headers,
    params := [("pageSize", toString page_size)] ++
      truthyParam "pageToken" page_token,
    body := none }

def JulesClient.get_session_req (c : JulesClient) (session_name : String) :
    HttpRequest :=
  { method := "GET", url := BASE_URL ++ "/" ++ session_name,
    headers := c.headers, params := [], body := none }

/-- `client.py` `create_session`: the request body, built with Python
truthiness tests (`if branch:`, `if title:`, `if require_plan_approval:`). -/
def createSessionBody (prompt source : String) (branch title : Option String)
    (require_plan_approval : Bool) : Json :=
  let sourceContextFields :=
    ("source", Json.str source) ::
      (match branch with
       | some b => if b == "" then [] else [("branch", Json.str b)]
       | none => [])
  Json.obj
    ([("prompt", Json.str prompt),
      ("sourceContext", Json.obj sourceContextFields)] ++
      (match title with
       | some t => if t == "" then [] else [("title", Json.str t)]
       | none => []) ++
      (if require_plan_approval
       then [("requirePlanApproval", Json.bool require_plan_approval)]
       else []))

def JulesClient.create_session_req (c : JulesClient) (prompt source : String)
    (branch title : Option String) (require_plan_approval : Bool) :
    HttpRequest :=
  { method := "POST", url := BASE_URL ++ "/sessions", headers := c.headers,
    params := [],
    body := some (createSessionBody prompt source branch title
      require_plan_approval) }

def JulesClient.send_message_req (c : JulesClient)
    (session_name prompt : String) : HttpRequest :=
  let session_name :=
    if "sessions/".isPrefixOf session_name then session_name
    else "sessions/" ++ session_name
  { method := "POST", url := BASE_URL ++ "/" ++ session_name ++ ":sendMessage",
    headers := c.headers, params := [],
    body := some (.obj [("prompt", .str prompt)]) }

def JulesClient.approve_plan_req (c : JulesClient) (session_name : String) :
    HttpRequest :=
  let session_name :=
    if "sessions/".isPrefixOf session_name then session_name
    else "sessions/" ++ session_name
  { method := "POST", url := BASE_URL ++ "/" ++ session_name ++ ":approvePlan",
    headers := c.headers, params := [], body := some (.obj []) }

def JulesClient.list_activities_req (c : JulesClient) (session_name : String)
    (page_size : Nat) (page_token : Option String) : HttpRequest :=
  let session_name :=
    if "sessions/".isPrefixOf session_name then session_name
    else "sessions/" ++ session_name
  { method := "GET", url := BASE_URL ++ "/" ++ session_name ++ "/activities",
    headers := c.headers,
    params := [("pageSize", toString page_size)] ++
      truthyParam "pageToken" page_token,
    body := none }

def JulesClient.get_activity_req (c : JulesClient) (activity_name : String) :
    HttpRequest :=
  { method := "GET", url := BASE_URL ++ "/" ++ activity_name,
    headers := c.headers, params := [], body := none }

/-- One logical operation: a single transport call (the request list is the
trace of issued requests), `raise_for_status`, then the response handler. -/
def runOp (req : HttpRequest) (resp : HttpResponse)
    (handle : Json → Except JulesError α) :
    List HttpRequest × Except JulesError α :=
  ([req], (checkStatus resp).bind handle)

def JulesClient.list_sources_run (c : JulesClient) (page_size : Nat)
    (page_token filter_expr : Option String) (resp : HttpResponse) :
    List HttpRequest × Except JulesError ListSourcesResponse :=
  runOp (c.list_sources_req page_size page_token filter_expr) resp
    (fun j => (ListSourcesResponse.parse j).mapError .validation)

def JulesClient.get_source_run (c : JulesClient) (source_name : String)
    (resp : HttpResponse) : List HttpRequest × Except JulesError Source :=
  runOp (c.get_source_req source_name) resp
    (fun j => (Source.parse j).mapError .validation)

def JulesClient.list_sessions_run (c : JulesClient) (page_size : Nat)
    (page_token : Option String) (resp : HttpResponse) :
    List HttpRequest × Except JulesError ListSessionsResponse :=
  runOp (c.list_sessions_req page_size page_token) resp
    (fun j => (ListSessionsResponse.parse j).mapError .validation)

def JulesClient.get_session_run (c : JulesClient) (session_name : String)
    (resp : HttpResponse) : List HttpRequest × Except JulesError Session :=
  runOp (c.get_session_req session_name) resp
    (fun j => (Session.parse j).mapError .validation)

def JulesClient.create_session_run (c : JulesClient) (prompt source : String)
    (branch title : Option String) (require_plan_approval : Bool)
    (resp : HttpResponse) : List HttpRequest × Except JulesError Session :=
  runOp (c.create_session_req prompt source branch title require_plan_approval)
    resp (fun j => (Session.parse j).mapError .validation)

def JulesClient.send_message_run (c : JulesClient)
    (session_name prompt : String) (resp : HttpResponse) :
    List HttpRequest × Except JulesError Json :=
  let session_name' :=
    if "sessions/".isPrefixOf session_name then session_name
    else "sessions/" ++ session_name
  runOp (c.send_message_req session_name prompt) resp
    (fun _ => .ok (.obj [("success", .bool true), ("session", .str session_name')]))

def JulesClient.approve_plan_run (c : JulesClient) (session_name : String)
    (resp : HttpResponse) : List HttpRequest × Except JulesError Json :=
  let session_name' :=
    if "sessions/".isPrefixOf session_name then session_name
    else "sessions/" ++ session_name
  runOp (c.approve_plan_req session_name) resp
    (fun _ => .ok (.obj [("success", .bool true), ("session", .str session_name')]))

def JulesClient.list_activities_run (c : JulesClient) (session_name : String)
    (page_size : Nat) (page_token : Option String) (resp : HttpResponse) :
    List HttpRequest × Except JulesError ListActivitiesResponse :=
  runOp (c.list_activities_req session_name page_size page_token) resp
    (fun j => (ListActivitiesResponse.parse j).mapError .validation)

def JulesClient.get_activity_run (c : JulesClient) (activity_name : String)
    (resp : HttpResponse) : List HttpRequest × Except JulesError Activity :=
  runOp (c.get_activity_req activity_name) resp
    (fun j => (Activity.parse j).mapError .validation)

/-! The tool layer, `main.py`.  Every tool first calls `get_client()`, which
reads `JULES_API_KEY` from the process environment and raises a `ValueError`
when it is missing or falsy, before any request can be issued.  A tool is
modelled as a function of the environment lookup result, the tool arguments
and the transport response, returning the trace of issued requests together
with the outcome. -/

/-- `main.py` `get_client`: `os.environ.get("JULES_API_KEY")` and the
fail-fast check `if not api_key` (true for both a missing variable and an
empty string). -/
def get_client (env : Option String) : Except String JulesClient :=
  match env with
  | none => .error "JULES_API_KEY environment variable is required"
  | some k =>
    if k == "" then .error "JULES_API_KEY environment variable is required"
    else .ok { api_key := k }

def tool_list_sources (env : Option String) (page_size : Nat)
    (page_token : Option String) (resp : HttpResponse) :
    List HttpRequest × Except JulesError ListSourcesResponse :=
  match get_client env with
  | .error e => ([], .error (.configuration e))
  | .ok c => c.list_sources_run page_size page_token none resp

def tool_get_source (env : Option String) (source_name : String)
    (resp : HttpResponse) : List HttpRequest × Except JulesError Source :=
  match get_client env with
  | .error e => ([], .error (.configuration e))
  | .ok c => c.get_source_run source_name resp

/-- `main.py` `list_sessions`: after the client call, `active_only=True`
filters out `COMPLETED` and `FAILED` sessions client-side. -/
def tool_list_sessions (env : Option String) (page_size : Nat)
    (page_token : Option String) (active_only : Bool) (resp : HttpResponse) :
    List HttpRequest × Except JulesError (List Session × Option String) :=
  match get_client env with
  | .error e => ([], .error (.configuration e))
  | .ok c =>
    let (reqs, r) := c.list_sessions_run page_size page_token resp
    (reqs, r.map (fun lr =>
      (if active_only
       then lr.sessions.filter (fun s =>
         !(s.state = SessionState.COMPLETED ∨ s.state = SessionState.FAILED : Bool))
       else lr.sessions,
       lr.nextPageToken)))

def tool_get_session (env : Option String) (session_name : String)
    (resp : HttpResponse) : List HttpRequest × Except JulesError Session :=
  match get_client env with
  | .error e => ([], .error (.configuration e))
  | .ok c => c.get_session_run session_name resp

def tool_create_session (env : Option String) (prompt source : String)
    (branch title : Option String) (require_plan_approval : Bool)
    (resp : HttpResponse) : List HttpRequest × Except JulesError Session :=
  match get_client env with
  | .error e => ([], .error (.configuration e))
  | .ok c =>
    c.create_session_run prompt source branch title require_plan_approval resp

def tool_send_message (env : Option String) (session_name message : String)
    (resp : HttpResponse) : List HttpRequest × Except JulesError Json :=
  match get_client env with
  | .error e => ([], .error (.configuration e))
  | .ok c => c.send_message_run session_name message resp

def tool_approve_plan (env : Option String) (session_name : String)
    (resp : HttpResponse) : List HttpRequest × Except JulesError Json :=
  match get_client env with
  | .error e => ([], .error (.configuration e))
  | .ok c => c.approve_plan_run session_name resp

def tool_list_activities (env : Option String) (session_name : String)
    (page_size : Nat) (page_token : Option String) (resp : HttpResponse) :
    List HttpRequest × Except JulesError ListActivitiesResponse :=
  match get_client env with
  | .error e => ([], .error (.configuration e))
  | .ok c => c.list_activities_run session_name page_size page_token resp

/-- `main.py` `create_pull_request`: appends a fixed PR instruction to the
caller's prompt and delegates to `create_session` with
`require_plan_approval=False`. -/
def tool_create_pull_request (env : Option String) (prompt source : String)
    (branch title : Option String) (resp : HttpResponse) :
    List HttpRequest × Except JulesError Session :=
  let full_prompt :=
    prompt ++ "\n\nPlease create a pull request with these changes."
  match get_client env with
  | .error e => ([], .error (.configuration e))
  | .ok c => c.create_session_run full_prompt source branch title false resp

/-- Substring test used by the statements about request paths. -/
def charsContain (pat : List Char) : List Char → Bool
  | [] => pat.isPrefixOf []
  | c :: cs => pat.isPrefixOf (c :: cs) || charsContain pat cs

/-- `pat` occurs as a contiguous substring of `s`. -/
def strContains (s pat : String) : Bool :=
  charsContain pat.data s.data

/-- The normalization the spec requires for session references: prefix the
collection name unless the reference is already qualified. -/
def normalizeSessionName (n : String) : String :=
  if "sessions/".isPrefixOf n then n else "sessions/" ++ n

/-! Concrete wire objects used by the example-level statements. -/

/-- The spec's session-creation example body without `prompt`. -/
def sessionWireMissingPrompt : Json :=
  .obj [("sourceContext", .obj [("source", .str "sources/github/acme/widgets")])]

/-- The spec's example body: only `prompt` and `sourceContext`. -/
def sessionWirePromptOnly : Json :=
  .obj [("prompt", .str "fix bug"),
        ("sourceContext", .obj [("source", .str "sources/github/acme/widgets")])]

/-- The example body completed with the other fields `Session` declares as
required: `name`, `id` and `state`. -/
def sessionWireMinimal : Json :=
  .obj [("name", .str "sessions/abc123"), ("id", .str "abc123"),
        ("prompt", .str "fix bug"),
        ("sourceContext", .obj [("source", .str "sources/github/acme/widgets")]),
        ("state", .str "STATE_UNSPECIFIED")]

/-- A session wire object that is well-formed except that its `state` string
is outside the enum's closed set. -/
def sessionWireBogusState : Json :=
  .obj [("name", .str "sessions/abc123"), ("id", .str "abc123"),
        ("prompt", .str "fix bug"),
        ("sourceContext", .obj [("source", .str "sources/github/acme/widgets")]),
        ("state", .str "RUNNING")]

/-- C1, counterexample: the claim says a wire object carrying only
`prompt="fix bug"` and `sourceContext={"source": ...}` parses successfully;
on this code it does not, because `Session` also declares `name`, `id` and
`state` as required fields. -/
theorem session_parse_prompt_only_fails :
    (Session.parse sessionWirePromptOnly).isOk = false := rfl

/-- C1 (amended): `parse` fails when a required field is absent — dropping
`prompt` fails, and the `prompt`+`sourceContext`-only object also fails
because `name`, `id` and `state` are required as well; completing it with
`name`, `id` and `state = "STATE_UNSPECIFIED"` parses into a record whose
`state` is the unspecified variant and whose optional fields are unset. -/
theorem session_parse_required_fields :
    (Session.parse sessionWireMissingPrompt).isOk = false ∧
    (Session.parse sessionWirePromptOnly).isOk = false ∧
    Session.parse sessionWireMinimal = .ok
      { name := "sessions/abc123", id := "abc123", prompt := "fix bug",
        sourceContext := { source := "sources/github/acme/widgets",
                           githubRepoContext := none },
        title := none, requirePlanApproval := none, automationMode := none,
        createTime := none, updateTime := none,
        state := .STATE_UNSPECIFIED, url := none, outputs := none } :=
  ⟨rfl, rfl, rfl⟩

/-- C2, counterexample: the claim says an unrecognized enumerated wire value
must not make parsing fail; here a session whose `state` is `"RUNNING"`
(outside the closed set) fails to parse. -/
theorem session_parse_unknown_state_fails :
    (Session.parse sessionWireBogusState).isOk = false := rfl

/-- C2 (amended): enumerated fields accept exactly their closed value sets —
`SessionState.ofString` and `AutomationMode.ofString` succeed precisely on
the declared members, and a session whose `state` carries any other string
fails to parse with a validation error (there is no lossless preservation
and no fallback variant). -/
theorem enum_closed_set_validation :
    (∀ s : String, (SessionState.ofString s).isOk = true ↔
      s ∈ ["STATE_UNSPECIFIED", "QUEUED", "PLANNING",
           "AWAITING_PLAN_APPROVAL", "AWAITING_USER_FEEDBACK",
           "IN_PROGRESS", "PAUSED", "FAILED", "COMPLETED"]) ∧
    (∀ s : String, (AutomationMode.ofString s).isOk = true ↔
      s ∈ ["AUTOMATION_MODE_UNSPECIFIED", "AUTO_CREATE_PR"]) ∧
    (Session.parse sessionWireBogusState).isOk = false := by
  refine ⟨fun s => ?_, fun s => ?_, rfl⟩
  · unfold SessionState.ofString
    split <;> simp_all [Except.isOk, Except.toBool]
  · unfold AutomationMode.ofString
    split <;> simp_all [Except.isOk, Except.toBool]

/-- C3, counterexample: the claim says every operation taking a session or
activity reference normalizes a bare id by prefixing the collection name;
`get_session` does not — given the bare id `"abc123"` it issues a request
whose path does not contain `"sessions/abc123"`. -/
theorem get_session_bare_id_not_normalized :
    (JulesClient.get_session_req { api_key := "k" } "abc123").url
      = "https://jules.googleapis.com/v1alpha/abc123" ∧
    strContains (JulesClient.get_session_req { api_key := "k" } "abc123").url
      "sessions/abc123" = false := ⟨rfl, rfl⟩

/-- C3 (amended): only `send_message`, `approve_plan` and `list_activities`
normalize a session reference (prefixing `sessions/` unless already
qualified, and never double-prefixing); `get_session` and `get_activity`
substitute the caller's reference into the path unchanged. -/
theorem session_name_normalization_per_operation :
    ∀ (c : JulesClient) (n p : String) (ps : Nat) (pt : Option String),
      (c.send_message_req n p).url
        = BASE_URL ++ "/" ++ normalizeSessionName n ++ ":sendMessage" ∧
      (c.approve_plan_req n).url
        = BASE_URL ++ "/" ++ normalizeSessionName n ++ ":approvePlan" ∧
      (c.list_activities_req n ps pt).url
        = BASE_URL ++ "/" ++ normalizeSessionName n ++ "/activities" ∧
      (c.get_session_req n).url = BASE_URL ++ "/" ++ n ∧
      (c.get_activity_req n).url = BASE_URL ++ "/" ++ n :=
  fun _ _ _ _ _ => ⟨rfl, rfl, rfl, rfl, rfl⟩

/-- C5: every adapter operation performs exactly one transport call, and any
non-2xx response makes it fail with the remote-error kind carrying the
response's status code and body verbatim — no retry is performed. -/
theorem non_2xx_raises_remote_error
    (c : JulesClient) (resp : HttpResponse) (page_size : Nat)
    (page_token filter_expr branch title : Option String)
    (source_name session_name activity_name prompt source message : String)
    (require_plan_approval : Bool)
    (h : ¬(200 ≤ resp.status ∧ resp.status < 300)) :
    c.list_sources_run page_size page_token filter_expr resp
      = ([c.list_sources_req page_size page_token filter_expr],
         .error (.remote resp.status resp.body)) ∧
    c.get_source_run source_name resp
      = ([c.get_source_req source_name],
         .error (.remote resp.status resp.body)) ∧
    c.list_sessions_run page_size page_token resp
      = ([c.list_sessions_req page_size page_token],
         .error (.remote resp.status resp.body)) ∧
    c.get_session_run session_name resp
      = ([c.get_session_req session_name],
         .error (.remote resp.status resp.body)) ∧
    c.create_session_run prompt source branch title require_plan_approval resp
      = ([c.create_session_req prompt source branch title require_plan_approval],
         .error (.remote resp.status resp.body)) ∧
    c.send_message_run session_name message resp
      = ([c.send_message_req session_name message],
         .error (.remote resp.status resp.body)) ∧
    c.approve_plan_run session_name resp
      = ([c.approve_plan_req session_name],
         .error (.remote resp.status resp.body)) ∧
    c.list_activities_run session_name page_size page_token resp
      = ([c.list_activities_req session_name page_size page_token],
         .error (.remote resp.status resp.body)) ∧
    c.get_activity_run activity_name resp
      = ([c.get_activity_req activity_name],
         .error (.remote resp.status resp.body)) := by
  have hcs : checkStatus resp = .error (.remote resp.status resp.body) := by
    unfold checkStatus
    rw [if_neg h]
  refine ⟨?_, ?_, ?_, ?_, ?_, ?_, ?_, ?_, ?_⟩ <;>
    simp [JulesClient.list_sources_run, JulesClient.get_source_run,
      JulesClient.list_sessions_run, JulesClient.get_session_run,
      JulesClient.create_session_run, JulesClient.send_message_run,
      JulesClient.approve_plan_run, JulesClient.list_activities_run,
      JulesClient.get_activity_run, runOp, hcs, Except.bind]

/-- The spec's example failure response: HTTP 404 with the body
`{"error": "not found"}`. -/
def notFoundResp : HttpResponse :=
  { status := 404, body := .obj [("error", .str "not found")] }

/-- C5, witness: instantiating the non-2xx theorem at a 404 response with
body `{"error": "not found"}` and concrete arguments. -/
theorem non_2xx_raises_remote_error_witness :
    JulesClient.get_session_run { api_key := "k" } "sessions/abc123" notFoundResp
      = ([JulesClient.get_session_req { api_key := "k" } "sessions/abc123"],
         .error (.remote 404 (.obj [("error", .str "not found")]))) :=
  (non_2xx_raises_remote_error { api_key := "k" } notFoundResp 30 none none
    none none "sources/github/acme/widgets" "sessions/abc123"
    "sessions/abc123/activities/a1" "fix bug" "sources/github/acme/widgets"
    "hello" false (by decide)).2.2.2.1

/-- C7, counterexample: the claim says the session-creation body includes the
`branch` key inside `sourceContext` iff the caller supplied a branch, and
`title` iff the caller supplied a title; a caller-supplied empty string is a
supplied value, yet both keys are omitted (`if branch:` / `if title:` test
Python truthiness, not presence). -/
theorem create_session_body_empty_string_omitted :
    ((createSessionBody "p" "s" (some "") (some "") false).get
        "sourceContext").bind (fun j => j.get "branch") = none ∧
    (createSessionBody "p" "s" (some "") (some "") false).get "title" = none :=
  ⟨rfl, rfl⟩

/-- C7 (amended): the session-creation body includes the `branch` key inside
`sourceContext` iff the caller supplied a non-empty branch, and the `title`
key iff the caller supplied a non-empty title (Python truthiness); `prompt`
and `sourceContext.source` are always present, and `requirePlanApproval`
only when the flag is `True`. -/
theorem create_session_body_truthy_fields :
    ∀ (prompt source : String) (branch title : Option String) (rpa : Bool),
      ((createSessionBody prompt source branch title rpa).get
          "sourceContext").bind (fun j => j.get "branch")
        = (match branch with
           | some b => if b == "" then none else some (.str b)
           | none => none) ∧
      (createSessionBody prompt source branch title rpa).get "title"
        = (match title with
           | some t => if t == "" then none else some (.str t)
           | none => none) ∧
      (createSessionBody prompt source branch title rpa).get "prompt"
        = some (.str prompt) ∧
      ((createSessionBody prompt source branch title rpa).get
          "sourceContext").bind (fun j => j.get "source")
        = some (.str source) ∧
      (createSessionBody prompt source branch title rpa).get
          "requirePlanApproval"
        = (if rpa then some (.bool rpa) else none) := by
  intro prompt source branch title rpa
  rcases branch with _ | b <;> rcases title with _ | t <;> cases rpa <;>
    refine ⟨?_, ?_, ?_, ?_, ?_⟩ <;>
      simp [createSessionBody, Json.get, lookupField] <;>
      split <;> simp [lookupField]

/-- C8: when `JULES_API_KEY` is absent from the environment, every tool
fails with the distinct configuration error before any network activity —
its request trace is empty, so no HTTP request is issued. -/
theorem missing_api_key_fails_before_request
    (env : Option String) (resp : HttpResponse) (page_size : Nat)
    (page_token branch title : Option String)
    (source_name session_name prompt source message : String)
    (require_plan_approval active_only : Bool)
    (h : env = none) :
    tool_list_sources env page_size page_token resp
      = ([], .error (.configuration "JULES_API_KEY environment variable is required")) ∧
    tool_get_source env source_name resp
      = ([], .error (.configuration "JULES_API_KEY environment variable is required")) ∧
    tool_list_sessions env page_size page_token active_only resp
      = ([], .error (.configuration "JULES_API_KEY environment variable is required")) ∧
    tool_get_session env session_name resp
      = ([], .error (.configuration "JULES_API_KEY environment variable is required")) ∧
    tool_create_session env prompt source branch title require_plan_approval resp
      = ([], .error (.configuration "JULES_API_KEY environment variable is required")) ∧
    tool_send_message env session_name message resp
      = ([], .error (.configuration "JULES_API_KEY environment variable is required")) ∧
    tool_approve_plan env session_name resp
      = ([], .error (.configuration "JULES_API_KEY environment variable is required")) ∧
    tool_list_activities env session_name page_size page_token resp
      = ([], .error (.configuration "JULES_API_KEY environment variable is required")) ∧
    tool_create_pull_request env prompt source branch title resp
      = ([], .error (.configuration "JULES_API_KEY environment variable is required")) := by
  subst h
  exact ⟨rfl, rfl, rfl, rfl, rfl, rfl, rfl, rfl, rfl⟩

/-- C8, witness: the fail-fast theorem instantiated at an absent environment
variable and concrete tool arguments. -/
theorem missing_api_key_fails_before_request_witness :
    tool_get_session none "sessions/abc123" notFoundResp
      = ([], .error (.configuration "JULES_API_KEY environment variable is required")) :=
  (missing_api_key_fails_before_request none notFoundResp 30 none none none
    "sources/github/acme/widgets" "sessions/abc123" "fix bug"
    "sources/github/acme/widgets" "hello" false false rfl).2.2.2.1

/-- C10: for every prompt `p`, `create_pull_request` issues exactly one
session-creation request whose body's `prompt` field is `p` followed by the
fixed suffix, built with `require_plan_approval = False` (so the body
carries no `requirePlanApproval` key), and the suffixed prompt always
differs from `p` — the user's prompt is never sent unmodified. -/
theorem create_pull_request_appends_suffix
    (api_key prompt source : String) (branch title : Option String)
    (resp : HttpResponse) (h : ¬ api_key = "") :
    (tool_create_pull_request (some api_key) prompt source branch title resp).1
      = [JulesClient.create_session_req { api_key := api_key }
          (prompt ++ "\n\nPlease create a pull request with these changes.")
          source branch title false] ∧
    (createSessionBody
        (prompt ++ "\n\nPlease create a pull request with these changes.")
        source branch title false).get "prompt"
      = some (.str (prompt ++ "\n\nPlease create a pull request with these changes.")) ∧
    (createSessionBody
        (prompt ++ "\n\nPlease create a pull request with these changes.")
        source branch title false).get "requirePlanApproval" = none ∧
    prompt ++ "\n\nPlease create a pull request with these changes." ≠ prompt := by
  refine ⟨?_, ?_, ?_, ?_⟩
  · simp [tool_create_pull_request, get_client, h,
      JulesClient.create_session_run, runOp]
  · rcases branch with _ | b <;> rcases title with _ | t <;>
      simp [createSessionBody, Json.get, lookupField]
  · rcases branch with _ | b <;> rcases title with _ | t <;>
      simp [createSessionBody, Json.get, lookupField] <;>
      (try split <;> simp [lookupField])
  · intro heq
    have hlen := congrArg String.length heq
    rw [String.length_append] at hlen
    have hs : ("\n\nPlease create a pull request with these changes." :
        String).length = 50 := rfl
    rw [hs] at hlen
    omega

/-- C10, witness: the suffix theorem instantiated at a concrete prompt. -/
theorem create_pull_request_appends_suffix_witness :
    (tool_create_pull_request (some "k") "fix bug"
        "sources/github/acme/widgets" none none notFoundResp).1
      = [JulesClient.create_session_req { api_key := "k" }
          ("fix bug" ++ "\n\nPlease create a pull request with these changes.")
          "sources/github/acme/widgets" none none false] ∧
    "fix bug" ++ "\n\nPlease create a pull request with these changes."
      ≠ "fix bug" :=
  ⟨(create_pull_request_appends_suffix "k" "fix bug"
      "sources/github/acme/widgets" none none notFoundResp (by decide)).1,
   (create_pull_request_appends_suffix "k" "fix bug"
      "sources/github/acme/widgets" none none notFoundResp (by decide)).2.2.2⟩

/-- Inversion for `Except.map some`. -/
theorem except_map_some_ok {α : Type} {e : Except String α} {o : Option α}
    (h : e.map some = .ok o) : ∃ w, e = .ok w ∧ o = some w := by
  cases e with
  | error err => exact Except.noConfusion h
  | ok w =>
    have h' : (Except.ok (some w) : Except String (Option α)) = .ok o := h
    cases h'
    exact ⟨w, rfl, rfl⟩

/-- If an optional-list field parses and the wire value is an array, the
element list parses in order to the record's list (`none` defaults to `[]`). -/
theorem optList_arr_ok {α : Type} {p : Json → Except String α}
    {x : Json} {k : String} {l : List Json} {o : Option (List α)}
    (hl : x.get k = some (.arr l)) (h : optList x k p = .ok o) :
    parseList p l = .ok (o.getD []) := by
  unfold optList at h
  rw [hl] at h
  obtain ⟨as, has, rfl⟩ := except_map_some_ok h
  rw [has]
  rfl

/-- C4: each list operation's response wrapper holds the ordered sequence of
result items plus an optional continuation token — parsing preserves the
wire order of the items and the token — and an empty or absent token means
there are no further pages. -/
theorem list_response_paginated_wrapper
    (x1 x2 x3 : Json) (l1 l2 l3 : List Json)
    (r1 : ListSourcesResponse) (r2 : ListSessionsResponse)
    (r3 : ListActivitiesResponse)
    (h1 : ListSourcesResponse.parse x1 = .ok r1)
    (hl1 : x1.get "sources" = some (.arr l1))
    (h2 : ListSessionsResponse.parse x2 = .ok r2)
    (hl2 : x2.get "sessions" = some (.arr l2))
    (h3 : ListActivitiesResponse.parse x3 = .ok r3)
    (hl3 : x3.get "activities" = some (.arr l3)) :
    parseList Source.parse l1 = .ok r1.sources ∧
    optStr x1 "nextPageToken" = .ok r1.nextPageToken ∧
    parseList Session.parse l2 = .ok r2.sessions ∧
    optStr x2 "nextPageToken" = .ok r2.nextPageToken ∧
    parseList Activity.parse l3 = .ok r3.activities ∧
    optStr x3 "nextPageToken" = .ok r3.nextPageToken ∧
    (∀ tok : Option String,
      hasMorePages tok = false ↔ tok = none ∨ tok = some "") := by
  refine ⟨?_, ?_, ?_, ?_, ?_, ?_, ?_⟩
  case _ | _ =>
    unfold ListSourcesResponse.parse at h1
    cases hi : optList x1 "sources" Source.parse with
    | error e => rw [hi] at h1; exact Except.noConfusion h1
    | ok items =>
      rw [hi] at h1
      cases ht : optStr x1 "nextPageToken" with
      | error e => rw [ht] at h1; exact Except.noConfusion h1
      | ok tok =>
        rw [ht] at h1
        have h1' : (Except.ok { sources := items.getD [], nextPageToken := tok } :
            Except String ListSourcesResponse) = .ok r1 := h1
        cases h1'
        first
        | exact optList_arr_ok hl1 hi
        | rfl
  case _ | _ =>
    unfold ListSessionsResponse.parse at h2
    cases hi : optList x2 "sessions" Session.parse with
    | error e => rw [hi] at h2; exact Except.noConfusion h2
    | ok items =>
      rw [hi] at h2
      cases ht : optStr x2 "nextPageToken" with
      | error e => rw [ht] at h2; exact Except.noConfusion h2
      | ok tok =>
        rw [ht] at h2
        have h2' : (Except.ok { sessions := items.getD [], nextPageToken := tok } :
            Except String ListSessionsResponse) = .ok r2 := h2
        cases h2'
        first
        | exact optList_arr_ok hl2 hi
        | rfl
  case _ | _ =>
    unfold ListActivitiesResponse.parse at h3
    cases hi : optList x3 "activities" Activity.parse with
    | error e => rw [hi] at h3; exact Except.noConfusion h3
    | ok items =>
      rw [hi] at h3
      cases ht : optStr x3 "nextPageToken" with
      | error e => rw [ht] at h3; exact Except.noConfusion h3
      | ok tok =>
        rw [ht] at h3
        have h3' : (Except.ok { activities := items.getD [], nextPageToken := tok } :
            Except String ListActivitiesResponse) = .ok r3 := h3
        cases h3'
        first
        | exact optList_arr_ok hl3 hi
        | rfl
  case _ =>
    intro tok
    cases tok with
    | none => simp [hasMorePages]
    | some t =>
      by_cases ht : t = "" <;> simp [hasMorePages, ht]

/-- C4, witness: the wrapper theorem instantiated at concrete single-page
responses (one with token `"T1"`, one with no token, one with an empty
token). -/
theorem list_response_paginated_wrapper_witness :
    parseList Source.parse [] = .ok ([] : List Source) ∧
    (hasMorePages (some "") = false ↔
      (some "" : Option String) = none ∨ (some "" : Option String) = some "") :=
  ⟨(list_response_paginated_wrapper
      (.obj [("sources", .arr []), ("nextPageToken", .str "T1")])
      (.obj [("sessions", .arr [])])
      (.obj [("activities", .arr []), ("nextPageToken", .str "")])
      [] [] []
      { sources := [], nextPageToken := some "T1" }
      { sessions := [], nextPageToken := none }
      { activities := [], nextPageToken := some "" }
      rfl rfl rfl rfl rfl rfl).1,
   (list_response_paginated_wrapper
      (.obj [("sources", .arr []), ("nextPageToken", .str "T1")])
      (.obj [("sessions", .arr [])])
      (.obj [("activities", .arr []), ("nextPageToken", .str "")])
      [] [] []
      { sources := [], nextPageToken := some "T1" }
      { sessions := [], nextPageToken := none }
      { activities := [], nextPageToken := some "" }
      rfl rfl rfl rfl rfl rfl).2.2.2.2.2.2 (some "")⟩

/-- A wire key counts as set when it is present with a non-`null` value. -/
def presentBit : Option Json → Bool
  | none => false
  | some .null => false
  | some _ => true

/-- How many of the seven activity payload keys a wire object sets. -/
def payloadWireCount (x : Json) : Nat :=
  (presentBit (x.get "agentMessaged")).toNat +
  (presentBit (x.get "userMessaged")).toNat +
  (presentBit (x.get "planGenerated")).toNat +
  (presentBit (x.get "planApproved")).toNat +
  (presentBit (x.get "progressUpdated")).toNat +
  (presentBit (x.get "sessionCompleted")).toNat +
  (presentBit (x.get "sessionFailed")).toNat

/-- How many of the seven payload variants a parsed `Activity` populates. -/
def Activity.payloadCount (a : Activity) : Nat :=
  a.agentMessaged.isSome.toNat + a.userMessaged.isSome.toNat +
  a.planGenerated.isSome.toNat + a.planApproved.isSome.toNat +
  a.progressUpdated.isSome.toNat + a.sessionCompleted.isSome.toNat +
  a.sessionFailed.isSome.toNat

/-- A successfully parsed optional nested field is populated exactly when
the wire key is present with a non-`null` value. -/
theorem optField_isSome {α : Type} {p : Json → Except String α}
    {x : Json} {k : String} {o : Option α}
    (h : optField x k p = .ok o) : o.isSome = presentBit (x.get k) := by
  unfold optField at h
  cases hg : x.get k with
  | none =>
    rw [hg] at h
    have h' : (Except.ok (none : Option α) : Except String (Option α)) = .ok o := h
    cases h'
    rfl
  | some v =>
    rw [hg] at h
    cases v
    case null =>
      have h' : (Except.ok (none : Option α) : Except String (Option α)) = .ok o := h
      cases h'
      rfl
    all_goals
      obtain ⟨w, hw, rfl⟩ := except_map_some_ok h
    all_goals rfl

/-- C9: when a wire object sets exactly one of the seven activity payload
keys, the parsed `Activity` exposes at most one populated payload variant. -/
theorem activity_payload_mutually_exclusive
    (x : Json) (a : Activity) (h : Activity.parse x = .ok a)
    (hone : payloadWireCount x = 1) :
    a.payloadCount ≤ 1 := by
  unfold Activity.parse at h
  cases h1 : reqStr x "name" with
  | error e => rw [h1] at h; exact Except.noConfusion h
  | ok vn =>
  rw [h1] at h
  cases h2 : reqStr x "id" with
  | error e => rw [h2] at h; exact Except.noConfusion h
  | ok vi =>
  rw [h2] at h
  cases h3 : optStr x "description" with
  | error e => rw [h3] at h; exact Except.noConfusion h
  | ok vd =>
  rw [h3] at h
  cases h4 : optStr x "createTime" with
  | error e => rw [h4] at h; exact Except.noConfusion h
  | ok vct =>
  rw [h4] at h
  cases h5 : optStr x "originator" with
  | error e => rw [h5] at h; exact Except.noConfusion h
  | ok vog =>
  rw [h5] at h
  cases h6 : optList x "artifacts" Artifact.parse with
  | error e => rw [h6] at h; exact Except.noConfusion h
  | ok var =>
  rw [h6] at h
  cases h7 : optField x "agentMessaged" AgentMessaged.parse with
  | error e => rw [h7] at h; exact Except.noConfusion h
  | ok vam =>
  rw [h7] at h
  cases h8 : optField x "userMessaged" UserMessaged.parse with
  | error e => rw [h8] at h; exact Except.noConfusion h
  | ok vum =>
  rw [h8] at h
  cases h9 : optField x "planGenerated" PlanGenerated.parse with
  | error e => rw [h9] at h; exact Except.noConfusion h
  | ok vpg =>
  rw [h9] at h
  cases h10 : optField x "planApproved" PlanApproved.parse with
  | error e => rw [h10] at h; exact Except.noConfusion h
  | ok vpa =>
  rw [h10] at h
  cases h11 : optField x "progressUpdated" ProgressUpdated.parse with
  | error e => rw [h11] at h; exact Except.noConfusion h
  | ok vpu =>
  rw [h11] at h
  cases h12 : optField x "sessionCompleted" SessionCompleted.parse with
  | error e => rw [h12] at h; exact Except.noConfusion h
  | ok vsc =>
  rw [h12] at h
  cases h13 : optField x "sessionFailed" SessionFailed.parse with
  | error e => rw [h13] at h; exact Except.noConfusion h
  | ok vsf =>
  rw [h13] at h
  have h' : (Except.ok
      { name := vn, id := vi, description := vd, createTime := vct,
        originator := vog, artifacts := var, agentMessaged := vam,
        userMessaged := vum, planGenerated := vpg, planApproved := vpa,
        progressUpdated := vpu, sessionCompleted := vsc,
        sessionFailed := vsf } : Except String Activity) = .ok a := h
  cases h'
  simp only [Activity.payloadCount]
  rw [optField_isSome h7, optField_isSome h8, optField_isSome h9,
    optField_isSome h10, optField_isSome h11, optField_isSome h12,
    optField_isSome h13]
  unfold payloadWireCount at hone
  omega

/-- A wire activity setting exactly the `agentMessaged` payload key. -/
def activityWireOnePayload : Json :=
  .obj [("name", .str "sessions/abc123/activities/a1"), ("id", .str "a1"),
        ("agentMessaged", .obj [("agentMessage", .str "hello")])]

/-- C9, witness: the exclusivity theorem instantiated at a concrete activity
that sets only `agentMessaged`. -/
theorem activity_payload_mutually_exclusive_witness :
    Activity.payloadCount
      { name := "sessions/abc123/activities/a1", id := "a1",
        description := none, createTime := none, originator := none,
        artifacts := none,
        agentMessaged := some { agentMessage := "hello" },
        userMessaged := none, planGenerated := none, planApproved := none,
        progressUpdated := none, sessionCompleted := none,
        sessionFailed := none } ≤ 1 :=
  activity_payload_mutually_exclusive activityWireOnePayload
    { name := "sessions/abc123/activities/a1", id := "a1",
      description := none, createTime := none, originator := none,
      artifacts := none,
      agentMessaged := some { agentMessage := "hello" },
      userMessaged := none, planGenerated := none, planApproved := none,
      progressUpdated := none, sessionCompleted := none,
      sessionFailed := none } rfl rfl

/-! Infrastructure for the round-trip statement: wire objects in canonical
form (schema keys only, `null`-free, nested objects laid out in field
order), and lemmas computing lookups on serialized records. -/

/-- First-defined-wins choice of two lookups. -/
def optOr (a b : Option Json) : Option Json :=
  match a with
  | some v => some v
  | none => b

theorem optOr_none (a : Option Json) : optOr a none = a := by
  cases a <;> rfl

theorem optOr_some (v : Json) (b : Option Json) :
    optOr (some v) b = some v := rfl

theorem optOr_nil (b : Option Json) : optOr none b = b := rfl

theorem lookupField_append (l1 l2 : List (String × Json)) (k : String) :
    lookupField (l1 ++ l2) k = optOr (lookupField l1 k) (lookupField l2 k) := by
  induction l1 with
  | nil => rfl
  | cons kv rest ih =>
    obtain ⟨k', v⟩ := kv
    by_cases hk : k' = k <;> simp [lookupField, hk, ih, optOr]

theorem lookupField_optEntry (k k' : String) (v : Option Json) :
    lookupField (optEntry k' v) k = if k' = k then v else none := by
  cases v <;> simp [optEntry, lookupField]

/-- Canonical wire form of a `GitHubRepoContext`. -/
def ghrcCanon : Json → Bool
  | .obj [("startingBranch", .str _)] => true
  | _ => false

/-- Canonical wire form of a `SourceContext`. -/
def sourceContextCanon : Json → Bool
  | .obj [("source", .str _)] => true
  | .obj [("source", .str _), ("githubRepoContext", g)] => ghrcCanon g
  | _ => false

/-- Canonical wire form of a `PullRequest`: an ordered sublist of
`url`, `title`, `description`, each a string. -/
def pullRequestCanon : Json → Bool
  | .obj [] => true
  | .obj [("url", .str _)] => true
  | .obj [("title", .str _)] => true
  | .obj [("description", .str _)] => true
  | .obj [("url", .str _), ("title", .str _)] => true
  | .obj [("url", .str _), ("description", .str _)] => true
  | .obj [("title", .str _), ("description", .str _)] => true
  | .obj [("url", .str _), ("title", .str _), ("description", .str _)] => true
  | _ => false

/-- Canonical wire form of a `SessionOutput`. -/
def sessionOutputCanon : Json → Bool
  | .obj [] => true
  | .obj [("pullRequest", p)] => pullRequestCanon p
  | _ => false

/-- Canonical wire form of an `outputs` array. -/
def outputsCanonList : List Json → Bool
  | [] => true
  | j :: rest => sessionOutputCanon j && outputsCanonList rest

/-- An optional scalar wire slot in canonical form: absent or a string. -/
def optStrCanon : Option Json → Bool
  | none => true
  | some (.str _) => true
  | _ => false

/-- An optional boolean wire slot in canonical form. -/
def optBoolCanon : Option Json → Bool
  | none => true
  | some (.bool _) => true
  | _ => false

/-- The `sourceContext` slot in canonical form (presence is enforced by the
parser itself). -/
def scFieldCanon : Option Json → Bool
  | none => true
  | some j => sourceContextCanon j

/-- An optional array wire slot in canonical form. -/
def optArrCanon (p : List Json → Bool) : Option Json → Bool
  | none => true
  | some (.arr l) => p l
  | _ => false

/-- A session wire object in canonical form: every optional slot is either
absent or carries a well-typed non-`null` value, and nested objects are in
field order without unknown keys (`null` and unknown nested keys are exactly
what `exclude_none` serialization can never emit). -/
def isCanonicalSessionWire (x : Json) : Bool :=
  optStrCanon (x.get "title") && optBoolCanon (x.get "requirePlanApproval") &&
  optStrCanon (x.get "automationMode") && optStrCanon (x.get "createTime") &&
  optStrCanon (x.get "updateTime") && optStrCanon (x.get "url") &&
  scFieldCanon (x.get "sourceContext") &&
  optArrCanon outputsCanonList (x.get "outputs")

/-- The wire keys participating in the `Session` schema. -/
def sessionSchemaKeys : List String :=
  ["name", "id", "prompt", "sourceContext", "title", "requirePlanApproval",
   "automationMode", "createTime", "updateTime", "state", "url", "outputs"]

theorem sessionState_ofString_toWire {s : String} {m : SessionState}
    (h : SessionState.ofString s = .ok m) : m.toWire = s := by
  unfold SessionState.ofString at h
  split at h <;> first | (cases h; rfl) | exact Except.noConfusion h

theorem automationMode_ofString_toWire {s : String} {m : AutomationMode}
    (h : AutomationMode.ofString s = .ok m) : m.toWire = s := by
  unfold AutomationMode.ofString at h
  split at h <;> first | (cases h; rfl) | exact Except.noConfusion h

theorem reqStr_ok {x : Json} {k : String} {v : String}
    (h : reqStr x k = .ok v) : x.get k = some (.str v) := by
  unfold reqStr at h
  cases hg : x.get k with
  | none => rw [hg] at h; exact Except.noConfusion h
  | some j =>
    rw [hg] at h
    cases j <;> try exact Except.noConfusion h
    case str s =>
      have h' : (Except.ok s : Except String String) = .ok v := h
      cases h'
      rfl

theorem optStr_ok_canon {x : Json} {k : String} {t : Option String}
    (h : optStr x k = .ok t) (hc : optStrCanon (x.get k) = true) :
    x.get k = t.map .str := by
  unfold optStr at h
  cases hg : x.get k with
  | none =>
    rw [hg] at h
    have h' : (Except.ok (none : Option String) :
        Except String (Option String)) = .ok t := h
    cases h'
    rfl
  | some j =>
    rw [hg] at h
    rw [hg] at hc
    cases j <;> try exact Except.noConfusion h
    case null => exact Bool.noConfusion hc
    case str s =>
      have h' : (Except.ok (some s) : Except String (Option String)) = .ok t := h
      cases h'
      rfl

theorem optBool_ok_canon {x : Json} {k : String} {t : Option Bool}
    (h : optBool x k = .ok t) (hc : optBoolCanon (x.get k) = true) :
    x.get k = t.map .bool := by
  unfold optBool at h
  cases hg : x.get k with
  | none =>
    rw [hg] at h
    have h' : (Except.ok (none : Option Bool) :
        Except String (Option Bool)) = .ok t := h
    cases h'
    rfl
  | some j =>
    rw [hg] at h
    rw [hg] at hc
    cases j <;> try exact Except.noConfusion h
    case null => exact Bool.noConfusion hc
    case bool b =>
      have h' : (Except.ok (some b) : Except String (Option Bool)) = .ok t := h
      cases h'
      rfl

theorem optEnum_am_ok_canon {x : Json} {k : String} {t : Option AutomationMode}
    (h : optEnum x k AutomationMode.ofString = .ok t)
    (hc : optStrCanon (x.get k) = true) :
    x.get k = t.map (fun m => .str m.toWire) := by
  unfold optEnum at h
  cases hg : x.get k with
  | none =>
    rw [hg] at h
    have h' : (Except.ok (none : Option AutomationMode) :
        Except String (Option AutomationMode)) = .ok t := h
    cases h'
    rfl
  | some j =>
    rw [hg] at h
    rw [hg] at hc
    cases j <;> try exact Except.noConfusion h
    case null => exact Bool.noConfusion hc
    case str s =>
      obtain ⟨m, hm, rfl⟩ := except_map_some_ok h
      rw [Option.map, automationMode_ofString_toWire hm]

theorem reqEnum_state_ok {x : Json} {k : String} {st : SessionState}
    (h : reqEnum x k SessionState.ofString = .ok st) :
    x.get k = some (.str st.toWire) := by
  unfold reqEnum at h
  cases hg : x.get k with
  | none => rw [hg] at h; exact Except.noConfusion h
  | some j =>
    rw [hg] at h
    cases j <;> try exact Except.noConfusion h
    case str s => rw [sessionState_ofString_toWire h]

theorem reqField_ok {α : Type} {p : Json → Except String α}
    {x : Json} {k : String} {v : α} (h : reqField x k p = .ok v) :
    ∃ j, x.get k = some j ∧ p j = .ok v := by
  unfold reqField at h
  cases hg : x.get k with
  | none => rw [hg] at h; exact Except.noConfusion h
  | some j =>
    rw [hg] at h
    cases j <;> first | exact Except.noConfusion h | exact ⟨_, rfl, h⟩

theorem ghrc_roundtrip {j : Json} {g : GitHubRepoContext}
    (hc : ghrcCanon j = true) (h : GitHubRepoContext.parse j = .ok g) :
    GitHubRepoContext.serialize g = j := by
  unfold ghrcCanon at hc
  split at hc
  · rename_i b
    have h' : (Except.ok { startingBranch := b } :
        Except String GitHubRepoContext) = .ok g := h
    cases h'
    rfl
  · exact Bool.noConfusion hc

theorem sourceContext_roundtrip {j : Json} {sc : SourceContext}
    (hc : sourceContextCanon j = true) (h : SourceContext.parse j = .ok sc) :
    SourceContext.serialize sc = j := by
  unfold sourceContextCanon at hc
  split at hc
  · rename_i v
    have h' : (Except.ok { source := v, githubRepoContext := none } :
        Except String SourceContext) = .ok sc := h
    cases h'
    rfl
  · rename_i v g
    unfold ghrcCanon at hc
    split at hc
    · rename_i b
      have h' : (Except.ok
          { source := v, githubRepoContext := some { startingBranch := b } } :
          Except String SourceContext) = .ok sc := h
      cases h'
      rfl
    · exact Bool.noConfusion hc
  · exact Bool.noConfusion hc

theorem pullRequest_roundtrip {j : Json} {r : PullRequest}
    (hc : pullRequestCanon j = true) (h : PullRequest.parse j = .ok r) :
    PullRequest.serialize r = j := by
  unfold pullRequestCanon at hc
  split at hc
  · have h' : (Except.ok
        { url := none, title := none, description := none } :
        Except String PullRequest) = .ok r := h
    cases h'
    rfl
  · rename_i u
    have h' : (Except.ok
        { url := some u, title := none, description := none } :
        Except String PullRequest) = .ok r := h
    cases h'
    rfl
  · rename_i t
    have h' : (Except.ok
        { url := none, title := some t, description := none } :
        Except String PullRequest) = .ok r := h
    cases h'
    rfl
  · rename_i d
    have h' : (Except.ok
        { url := none, title := none, description := some d } :
        Except String PullRequest) = .ok r := h
    cases h'
    rfl
  · rename_i u t
    have h' : (Except.ok
        { url := some u, title := some t, description := none } :
        Except String PullRequest) = .ok r := h
    cases h'
    rfl
  · rename_i u d
    have h' : (Except.ok
        { url := some u, title := none, description := some d } :
        Except String PullRequest) = .ok r := h
    cases h'
    rfl
  · rename_i t d
    have h' : (Except.ok
        { url := none, title := some t, description := some d } :
        Except String PullRequest) = .ok r := h
    cases h'
    rfl
  · rename_i u t d
    have h' : (Except.ok
        { url := some u, title := some t, description := some d } :
        Except String PullRequest) = .ok r := h
    cases h'
    rfl
  · exact Bool.noConfusion hc

theorem sessionOutput_roundtrip {j : Json} {o : SessionOutput}
    (hc : sessionOutputCanon j = true) (h : SessionOutput.parse j = .ok o) :
    SessionOutput.serialize o = j := by
  unfold sessionOutputCanon at hc
  split at hc
  · have h' : (Except.ok { pullRequest := none } :
        Except String SessionOutput) = .ok o := h
    cases h'
    rfl
  · rename_i p
    cases p <;> try exact Bool.noConfusion hc
    case obj l =>
      cases hp : PullRequest.parse (.obj l) with
      | error e =>
        simp [SessionOutput.parse, optField, Json.get, lookupField, hp,
          Except.map, Except.bind, bind] at h
      | ok w =>
        simp [SessionOutput.parse, optField, Json.get, lookupField, hp,
          Except.map, Except.bind, bind] at h
        subst h
        simp [SessionOutput.serialize, optEntry,
          pullRequest_roundtrip hc hp]
  · exact Bool.noConfusion hc

theorem outputsList_roundtrip {l : List Json} {as : List SessionOutput}
    (hc : outputsCanonList l = true)
    (h : parseList SessionOutput.parse l = .ok as) :
    as.map SessionOutput.serialize = l := by
  induction l generalizing as with
  | nil =>
    have h' : (Except.ok ([] : List SessionOutput) :
        Except String (List SessionOutput)) = .ok as := h
    cases h'
    rfl
  | cons j rest ih =>
    unfold outputsCanonList at hc
    rw [Bool.and_eq_true] at hc
    obtain ⟨hc1, hc2⟩ := hc
    unfold parseList at h
    cases hj : SessionOutput.parse j with
    | error e => rw [hj] at h; exact Except.noConfusion h
    | ok a =>
      rw [hj] at h
      cases hrest : parseList SessionOutput.parse rest with
      | error e => rw [hrest] at h; exact Except.noConfusion h
      | ok as' =>
        rw [hrest] at h
        have h' : (Except.ok (a :: as') :
            Except String (List SessionOutput)) = .ok as := h
        cases h'
        simp [List.map, sessionOutput_roundtrip hc1 hj, ih hc2 hrest]

theorem serialize_get_name (s : Session) :
    (Session.serialize s).get "name" = some (.str s.name) := by
  simp [Session.serialize, Json.get, lookupField_append, lookupField,
    lookupField_optEntry, optOr_some, optOr_nil, optOr_none]

theorem serialize_get_id (s : Session) :
    (Session.serialize s).get "id" = some (.str s.id) := by
  simp [Session.serialize, Json.get, lookupField_append, lookupField,
    lookupField_optEntry, optOr_some, optOr_nil, optOr_none]

theorem serialize_get_prompt (s : Session) :
    (Session.serialize s).get "prompt" = some (.str s.prompt) := by
  simp [Session.serialize, Json.get, lookupField_append, lookupField,
    lookupField_optEntry, optOr_some, optOr_nil, optOr_none]

theorem serialize_get_sourceContext (s : Session) :
    (Session.serialize s).get "sourceContext"
      = some s.sourceContext.serialize := by
  simp [Session.serialize, Json.get, lookupField_append, lookupField,
    lookupField_optEntry, optOr_some, optOr_nil, optOr_none]

theorem serialize_get_title (s : Session) :
    (Session.serialize s).get "title" = s.title.map .str := by
  simp [Session.serialize, Json.get, lookupField_append, lookupField,
    lookupField_optEntry, optOr_some, optOr_nil, optOr_none]

theorem serialize_get_rpa (s : Session) :
    (Session.serialize s).get "requirePlanApproval"
      = s.requirePlanApproval.map .bool := by
  simp [Session.serialize, Json.get, lookupField_append, lookupField,
    lookupField_optEntry, optOr_some, optOr_nil, optOr_none]

theorem serialize_get_automationMode (s : Session) :
    (Session.serialize s).get "automationMode"
      = s.automationMode.map (fun m => .str m.toWire) := by
  simp [Session.serialize, Json.get, lookupField_append, lookupField,
    lookupField_optEntry, optOr_some, optOr_nil, optOr_none]

theorem serialize_get_createTime (s : Session) :
    (Session.serialize s).get "createTime" = s.createTime.map .str := by
  simp [Session.serialize, Json.get, lookupField_append, lookupField,
    lookupField_optEntry, optOr_some, optOr_nil, optOr_none]

theorem serialize_get_updateTime (s : Session) :
    (Session.serialize s).get "updateTime" = s.updateTime.map .str := by
  simp [Session.serialize, Json.get, lookupField_append, lookupField,
    lookupField_optEntry, optOr_some, optOr_nil, optOr_none]

theorem serialize_get_state (s : Session) :
    (Session.serialize s).get "state" = some (.str s.state.toWire) := by
  simp [Session.serialize, Json.get, lookupField_append, lookupField,
    lookupField_optEntry, optOr_some, optOr_nil, optOr_none]

theorem serialize_get_url (s : Session) :
    (Session.serialize s).get "url" = s.url.map .str := by
  simp [Session.serialize, Json.get, lookupField_append, lookupField,
    lookupField_optEntry, optOr_some, optOr_nil, optOr_none]

theorem serialize_get_outputs (s : Session) :
    (Session.serialize s).get "outputs"
      = s.outputs.map (fun l => .arr (l.map SessionOutput.serialize)) := by
  simp [Session.serialize, Json.get, lookupField_append, lookupField,
    lookupField_optEntry, optOr_some, optOr_nil, optOr_none]

/-- Inversion of a successful `Session.parse`: each field of the record is
the result of its field parser. -/
theorem session_parse_fields {x : Json} {s : Session}
    (h : Session.parse x = .ok s) :
    reqStr x "name" = .ok s.name ∧
    reqStr x "id" = .ok s.id ∧
    reqStr x "prompt" = .ok s.prompt ∧
    reqField x "sourceContext" SourceContext.parse = .ok s.sourceContext ∧
    optStr x "title" = .ok s.title ∧
    optBool x "requirePlanApproval" = .ok s.requirePlanApproval ∧
    optEnum x "automationMode" AutomationMode.ofString = .ok s.automationMode ∧
    optStr x "createTime" = .ok s.createTime ∧
    optStr x "updateTime" = .ok s.updateTime ∧
    reqEnum x "state" SessionState.ofString = .ok s.state ∧
    optStr x "url" = .ok s.url ∧
    optList x "outputs" SessionOutput.parse = .ok s.outputs := by
  unfold Session.parse at h
  cases h1 : reqStr x "name" with
  | error e => rw [h1] at h; exact Except.noConfusion h
  | ok vn =>
  rw [h1] at h
  cases h2 : reqStr x "id" with
  | error e => rw [h2] at h; exact Except.noConfusion h
  | ok vi =>
  rw [h2] at h
  cases h3 : reqStr x "prompt" with
  | error e => rw [h3] at h; exact Except.noConfusion h
  | ok vp =>
  rw [h3] at h
  cases h4 : reqField x "sourceContext" SourceContext.parse with
  | error e => rw [h4] at h; exact Except.noConfusion h
  | ok vsc =>
  rw [h4] at h
  cases h5 : optStr x "title" with
  | error e => rw [h5] at h; exact Except.noConfusion h
  | ok vt =>
  rw [h5] at h
  cases h6 : optBool x "requirePlanApproval" with
  | error e => rw [h6] at h; exact Except.noConfusion h
  | ok vrpa =>
  rw [h6] at h
  cases h7 : optEnum x "automationMode" AutomationMode.ofString with
  | error e => rw [h7] at h; exact Except.noConfusion h
  | ok vam =>
  rw [h7] at h
  cases h8 : optStr x "createTime" with
  | error e => rw [h8] at h; exact Except.noConfusion h
  | ok vct =>
  rw [h8] at h
  cases h9 : optStr x "updateTime" with
  | error e => rw [h9] at h; exact Except.noConfusion h
  | ok vut =>
  rw [h9] at h
  cases h10 : reqEnum x "state" SessionState.ofString with
  | error e => rw [h10] at h; exact Except.noConfusion h
  | ok vst =>
  rw [h10] at h
  cases h11 : optStr x "url" with
  | error e => rw [h11] at h; exact Except.noConfusion h
  | ok vu =>
  rw [h11] at h
  cases h12 : optList x "outputs" SessionOutput.parse with
  | error e => rw [h12] at h; exact Except.noConfusion h
  | ok vo =>
  rw [h12] at h
  have h' : (Except.ok
      { name := vn, id := vi, prompt := vp, sourceContext := vsc,
        title := vt, requirePlanApproval := vrpa, automationMode := vam,
        createTime := vct, updateTime := vut, state := vst, url := vu,
        outputs := vo } : Except String Session) = .ok s := h
  cases h'
  exact ⟨rfl, rfl, rfl, rfl, rfl, rfl, rfl, rfl, rfl, rfl, rfl, rfl⟩

/-- C6: serializing a parsed session reproduces, key by key, every field of
the wire object that participates in the schema.  The wire object is
required to be in canonical form — schema values are non-`null` and nested
objects carry their schema fields in field order — which is exactly the
sublanguage `exclude_none` serialization ranges over; `null`-free-ness
matters because pydantic collapses an explicit `null` and an absent key to
the same unset record state. -/
theorem serialize_parse_roundtrip
    (x : Json) (s : Session)
    (h : Session.parse x = .ok s)
    (hc : isCanonicalSessionWire x = true) :
    ∀ k ∈ sessionSchemaKeys, (Session.serialize s).get k = x.get k := by
  obtain ⟨h1, h2, h3, h4, h5, h6, h7, h8, h9, h10, h11, h12⟩ :=
    session_parse_fields h
  unfold isCanonicalSessionWire at hc
  simp only [Bool.and_eq_true] at hc
  obtain ⟨⟨⟨⟨⟨⟨⟨c1, c2⟩, c3⟩, c4⟩, c5⟩, c6⟩, c7⟩, c8⟩ := hc
  intro k hk
  fin_cases hk
  · rw [serialize_get_name]
    exact (reqStr_ok h1).symm
  · rw [serialize_get_id]
    exact (reqStr_ok h2).symm
  · rw [serialize_get_prompt]
    exact (reqStr_ok h3).symm
  · rw [serialize_get_sourceContext]
    obtain ⟨j, hj, hpj⟩ := reqField_ok h4
    rw [hj] at c7
    rw [hj, sourceContext_roundtrip c7 hpj]
  · rw [serialize_get_title]
    exact (optStr_ok_canon h5 c1).symm
  · rw [serialize_get_rpa]
    exact (optBool_ok_canon h6 c2).symm
  · rw [serialize_get_automationMode]
    exact (optEnum_am_ok_canon h7 c3).symm
  · rw [serialize_get_createTime]
    exact (optStr_ok_canon h8 c4).symm
  · rw [serialize_get_updateTime]
    exact (optStr_ok_canon h9 c5).symm
  · rw [serialize_get_state]
    exact (reqEnum_state_ok h10).symm
  · rw [serialize_get_url]
    exact (optStr_ok_canon h11 c6).symm
  · rw [serialize_get_outputs]
    unfold optList at h12
    cases hg : x.get "outputs" with
    | none =>
      rw [hg] at h12
      have h' : (Except.ok (none : Option (List SessionOutput)) :
          Except String (Option (List SessionOutput))) = .ok s.outputs := h12
      have h'' : (none : Option (List SessionOutput)) = s.outputs := by
        injection h'
      rw [← h'']
      rfl
    | some j =>
      rw [hg] at h12
      rw [hg] at c8
      cases j <;> try exact Except.noConfusion h12
      case null => exact Bool.noConfusion c8
      case arr l =>
        obtain ⟨as, hpl, ho⟩ := except_map_some_ok h12
        rw [ho]
        simp [outputsList_roundtrip c8 hpl]

/-- A full canonical session wire object exercising every schema field. -/
def sessionWireFull : Json :=
  .obj [("name", .str "sessions/abc123"), ("id", .str "abc123"),
        ("prompt", .str "fix bug"),
        ("sourceContext",
          .obj [("source", .str "sources/github/acme/widgets"),
                ("githubRepoContext",
                  .obj [("startingBranch", .str "main")])]),
        ("title", .str "Fix the bug"),
        ("requirePlanApproval", .bool true),
        ("automationMode", .str "AUTO_CREATE_PR"),
        ("createTime", .str "2024-01-01T00:00:00Z"),
        ("updateTime", .str "2024-01-02T00:00:00Z"),
        ("state", .str "COMPLETED"),
        ("url", .str "https://jules.google.com/task/abc123"),
        ("outputs", .arr [.obj [("pullRequest",
          .obj [("url", .str "https://github.com/acme/widgets/pull/1"),
                ("title", .str "Fix"),
                ("description", .str "Fixes bug")])]])]

/-- The pull-request descriptor inside `sessionWireFull`. -/
def pullRequestFull : PullRequest :=
  { url := some "https://github.com/acme/widgets/pull/1",
    title := some "Fix", description := some "Fixes bug" }

/-- The record `sessionWireFull` parses to. -/
def sessionRecordFull : Session :=
  { name := "sessions/abc123", id := "abc123", prompt := "fix bug",
    sourceContext := { source := "sources/github/acme/widgets",
                       githubRepoContext := some { startingBranch := "main" } },
    title := some "Fix the bug", requirePlanApproval := some true,
    automationMode := some .AUTO_CREATE_PR,
    createTime := some "2024-01-01T00:00:00Z",
    updateTime := some "2024-01-02T00:00:00Z",
    state := .COMPLETED,
    url := some "https://jules.google.com/task/abc123",
    outputs := some [ { pullRequest := some pullRequestFull } ] }

/-- C6, witness: the round-trip theorem at a concrete wire object that sets
every schema field, instantiated at the nested `outputs` key. -/
theorem serialize_parse_roundtrip_witness :
    (Session.serialize sessionRecordFull).get "outputs"
      = sessionWireFull.get "outputs" :=
  serialize_parse_roundtrip sessionWireFull sessionRecordFull (by rfl)
    (by rfl) "outputs" (by decide)

end Jules
